import Mathlib

/-!
Verification of the reddit-modqueue-discord bot (src/bot.py) against its
natural-language specification.

The bot is a single class `Bot` whose `run` method consumes a live stream of
moderation reports, deduplicates them against a PostgreSQL table
`public.reports`, and forwards new reports to a Discord webhook.  We embed the
pure content of the relevant methods as Lean definitions:

* the report data model (a tagged union of praw Submission / Comment, as the
  mod-reports feed yields only those two praw model classes);
* `__get_report_type`, `__get_report_url`, `__get_submission_from_comment`,
  and the title/excerpt computation of `__generate_embed`;
* the literal SQL text built by `__report_exists` and `__save_report`
  (`"...".format(report)` string interpolation);
* the state machine of `run`: database rows, dispatch calls and log lines,
  with webhook-send failure modelled as environment data per feed item.

Python strings that are sliced by the code (`selftext[:120]`, `body[:120]`)
are modelled as `List Char` (a Python `str` is a sequence of code points);
strings only compared or concatenated are modelled as `String`.
-/

namespace ModqueueBot

/-- A report's author, with the attributes `__generate_embed` reads
(`report.author.name`, `created_utc`, `link_karma`, `comment_karma`,
`icon_img`). -/
structure Author where
  name : String
  created_utc : Int
  link_karma : Int
  comment_karma : Int
  icon_img : String
deriving Repr, DecidableEq

/-- The submission attributes read by the code: `title` and `selftext`. -/
structure SubmissionData where
  title : String
  selftext : List Char
deriving Repr, DecidableEq

/-- A comment's ancestor chain, as walked by `__get_submission_from_comment`
via `ancestor.parent()`.  `toSubmission s` is the position of a top-level
comment (praw `is_root` is true: its parent is the submission `s`);
`toComment p` is the position of a reply whose parent comment sits at
position `p`. -/
inductive CommentChain where
  | toSubmission (s : SubmissionData)
  | toComment (parent : CommentChain)
deriving Repr, DecidableEq

/-- The attributes every report object carries that the code reads
uniformly.  `idStr` is `str(report)` — the value interpolated by
`"{}".format(report)` into log lines and into the SQL text (for a praw
object this is its base36 id).  `permalinkIsMethod` records the
`isinstance(report.permalink, types.MethodType)` test of
`__get_report_url`, and `permalink` the string the attribute holds
(respectively the string `permalink(fast=True)` returns).
`dispatchFails` is environment data: whether `Webhook.send` raises for
this item (network error or endpoint rejection). -/
structure ReportFields where
  idStr : String
  author : Author
  created_utc : Int
  permalinkIsMethod : Bool
  permalink : String
  mod_reports : List (String × String)
  user_reports : List (String × String)
  dispatchFails : Bool
deriving Repr, DecidableEq

/-- A report from the mod-reports feed: a tagged union of praw
Submission and Comment (spec §3; the feed yields only these two praw
model classes). -/
inductive Report where
  | submission (f : ReportFields) (d : SubmissionData)
  | comment (f : ReportFields) (body : List Char) (chain : CommentChain)
deriving Repr, DecidableEq

/-- The common attributes of a report. -/
def Report.fields : Report → ReportFields
  | .submission f _ => f
  | .comment f _ _ => f

/-- `Bot.__get_report_type`: `"submission" if isinstance(report, Submission)
else "comment"`.  The isinstance test is the tag of the union; any
non-Submission object falls into the else branch. -/
def getReportType : Report → String
  | .submission _ _ => "submission"
  | .comment _ _ _ => "comment"

/-- `Bot.__get_report_url`: if `report.permalink` is a bound method the URL
is `"https://www.reddit.com/r/{}{}".format(self.subreddit, report.permalink(fast=True))`,
else `"https://www.reddit.com{}".format(report.permalink)`. -/
def getReportUrl (subreddit : String) (r : Report) : String :=
  if r.fields.permalinkIsMethod then
    "https://www.reddit.com/r/" ++ subreddit ++ r.fields.permalink
  else
    "https://www.reddit.com" ++ r.fields.permalink

/-- `Bot.__get_submission_from_comment`: starting from the comment, while
`not ancestor.is_root` step to `ancestor.parent()`; on exit (a top-level
comment) return `ancestor.parent()`, the submission.  The periodic
`ancestor.refresh()` (every 9th hop) re-fetches remote state and does not
change which submission the chain reaches, so it has no counterpart in
this pure model. -/
def getSubmissionFromComment : CommentChain → SubmissionData
  | .toSubmission s => s
  | .toComment p => getSubmissionFromComment p

/-- The excerpt expression of `__generate_embed`:
`(text[:120] + '...' if len(text) > 120 else text)`, applied to
`report.selftext` for submissions and `report.body` for comments. -/
def truncate (text : List Char) : List Char :=
  if text.length > 120 then text.take 120 ++ ['.', '.', '.'] else text

/-- The branch of the `if reportType == "submission" / elif "comment" / else`
chain of `__generate_embed` (lines 97-106) selected by a report-type
string: 0 for the submission branch, 1 for the comment branch, 2 for the
else branch that renders the `'(unknown)'` title and content. -/
def embedBranch (reportType : String) : Nat :=
  if reportType = "submission" then 0
  else if reportType = "comment" then 1
  else 2

/-- The `reportTitle` / `reportContent` pair of `__generate_embed`: the
submission branch reads `report.title` and truncated `report.selftext`;
the comment branch resolves the parent submission via
`__get_submission_from_comment` and reads its `title`, with truncated
`report.body`.  The branches follow `getReportType`, whose two values
select exactly these two arms (the else arm is unreachable; see the
branch analysis below). -/
def reportTitleContent : Report → String × List Char
  | .submission _ d => (d.title, truncate d.selftext)
  | .comment _ body chain => ((getSubmissionFromComment chain).title, truncate body)

/-- The SQL text `Bot.__report_exists` executes:
`"SELECT exists(SELECT * FROM public.reports WHERE report='{}')".format(report)`
— the identity is spliced into the text, not bound as a parameter. -/
def reportExistsQuery (report : String) : String :=
  "SELECT exists(SELECT * FROM public.reports WHERE report='" ++ report ++ "')"

/-- The SQL text `Bot.__save_report` executes:
`"INSERT INTO public.reports(report) VALUES ('{}')".format(report)`. -/
def saveReportQuery (report : String) : String :=
  "INSERT INTO public.reports(report) VALUES ('" ++ report ++ "')"

/-- The observable state of one run of `Bot.run`: the committed rows of
`public.reports` (their `report` text column, in insertion order), the
identities for which `Webhook.send` was invoked, and the lines printed. -/
structure BotState where
  db : List String
  dispatched : List String
  log : List String
deriving Repr, DecidableEq

/-- The boolean `__report_exists` computes for an identity free of the SQL
string delimiter: whether some committed row's `report` column equals it.
(The literal query text is `reportExistsQuery`; for identities containing
a quote that text means something else — see the injection analysis.) -/
def reportExists (db : List String) (idStr : String) : Bool :=
  db.contains idStr

/-- The `print("Checking report {}...".format(report))` line. -/
def checkLine (r : Report) : String :=
  "Checking report " ++ r.fields.idStr ++ "..."

/-- The `print("{} has already been reported".format(report))` line. -/
def alreadyLine (r : Report) : String :=
  r.fields.idStr ++ " has already been reported"

/-- The confirmation line of `run`:
`"A {} by {} has been reported: <{}>".format(type, report.author, url)`. -/
def confirmLine (subreddit : String) (r : Report) : String :=
  "A " ++ getReportType r ++ " by " ++ r.fields.author.name ++
    " has been reported: <" ++ getReportUrl subreddit r ++ ">"

/-- One iteration of the `for report in stream_generator(...)` body of
`Bot.run`.  Returns the state afterwards and whether the iteration
completed without an exception: printing the check line, then
`__report_exists`; if it exists, print the duplicate line; otherwise
`__save_report` (INSERT + commit), then — unless `skip_discord` is
truthy — `__send_to_discord` (which may raise: `dispatchFails`), then
the confirmation line.  There is no try/except in `run`, so a raised
exception ends the iteration (and, in `runLoop`, the whole loop). -/
def processItem (subreddit : String) (skip : Bool) (s : BotState) (r : Report) :
    BotState × Bool :=
  let s1 : BotState := { s with log := s.log ++ [checkLine r] }
  if reportExists s1.db r.fields.idStr then
    ({ s1 with log := s1.log ++ [alreadyLine r] }, true)
  else
    let s2 : BotState := { s1 with db := s1.db ++ [r.fields.idStr] }
    if skip then
      ({ s2 with log := s2.log ++ [confirmLine subreddit r] }, true)
    else
      let s3 : BotState := { s2 with dispatched := s2.dispatched ++ [r.fields.idStr] }
      if r.fields.dispatchFails then (s3, false)
      else ({ s3 with log := s3.log ++ [confirmLine subreddit r] }, true)

/-- `Bot.run` over a finite prefix of the feed: items are processed in
arrival order; an uncaught exception in an iteration propagates out of
the `for` loop (there is no try/except), so no later item is processed.
The returned boolean is whether the whole prefix was processed. -/
def runLoop (subreddit : String) (skip : Bool) (s : BotState) :
    List Report → BotState × Bool
  | [] => (s, true)
  | r :: rest =>
    let p := processItem subreddit skip s r
    if p.2 then runLoop subreddit skip p.1 rest else (p.1, false)

/-- The Python value of `os.environ.get('SKIP_DISCORD', False)`: the
environment string when the variable is set, the constant `False`
otherwise. -/
inductive PyEnvValue where
  | str (s : String)
  | pyFalse
deriving Repr, DecidableEq

/-- `os.environ.get('SKIP_DISCORD', False)` as a function of the (optional)
environment-variable value. -/
def envGet : Option String → PyEnvValue
  | some s => .str s
  | none => .pyFalse

/-- Python truthiness as tested by `if not self.skip_discord`: a string is
truthy iff non-empty; `False` is falsy. -/
def pyTruthy : PyEnvValue → Bool
  | .str s => !s.isEmpty
  | .pyFalse => false

/-- Whether the bot suppresses Discord notifications, as a function of the
`SKIP_DISCORD` environment variable. -/
def skipDiscordOfEnv (env : Option String) : Bool :=
  pyTruthy (envGet env)

/-- A comment position nested `n + 1` levels below its submission: `chainOfDepth 0 s`
is a top-level comment under `s`, and each further step adds one reply level. -/
def chainOfDepth : Nat → SubmissionData → CommentChain
  | 0, s => .toSubmission s
  | n + 1, s => .toComment (chainOfDepth n s)

/-! ### Helper lemmas about the loop -/

/-- After any iteration on report `r`, the database contains `r`'s identity:
either it already did (the duplicate branch), or `__save_report` inserted it
before anything else could fail. -/
lemma processItem_db_contains (subreddit : String) (skip : Bool) (s : BotState)
    (r : Report) :
    ((processItem subreddit skip s r).1.db).contains r.fields.idStr = true := by
  unfold processItem
  by_cases h : reportExists s.db r.fields.idStr
  · simp only [h, if_true]
    simpa [reportExists] using h
  · simp only [h]
    by_cases hs : skip <;> by_cases hd : r.fields.dispatchFails <;>
      simp [hs, hd]

/-- An iteration never removes a database row: it only appends. -/
lemma processItem_db_mono (subreddit : String) (skip : Bool) (s : BotState)
    (r : Report) (i : String) (h : s.db.contains i = true) :
    ((processItem subreddit skip s r).1.db).contains i = true := by
  unfold processItem
  by_cases he : reportExists s.db r.fields.idStr
  · simpa [he] using h
  · have h' : i ∈ s.db := by simpa using h
    by_cases hs : skip <;> by_cases hd : r.fields.dispatchFails <;>
      simp [he, hs, hd, h']

/-- The whole loop never removes a database row. -/
lemma runLoop_db_mono (subreddit : String) (skip : Bool) (s : BotState)
    (feed : List Report) (i : String) (h : s.db.contains i = true) :
    ((runLoop subreddit skip s feed).1.db).contains i = true := by
  induction feed generalizing s with
  | nil => simpa [runLoop] using h
  | cons r rest ih =>
    unfold runLoop
    by_cases hp : (processItem subreddit skip s r).2
    · simpa [hp] using ih _ (processItem_db_mono subreddit skip s r i h)
    · simpa [hp] using processItem_db_mono subreddit skip s r i h

/-- With `skip_discord` truthy an iteration always completes: the only
failure source modelled (the webhook send) is never reached. -/
lemma processItem_skip_ok (subreddit : String) (s : BotState) (r : Report) :
    (processItem subreddit true s r).2 = true := by
  unfold processItem
  by_cases he : reportExists s.db r.fields.idStr <;> simp [he]

/-- With `skip_discord` truthy an iteration makes no dispatch call. -/
lemma processItem_skip_dispatched (subreddit : String) (s : BotState) (r : Report) :
    (processItem subreddit true s r).1.dispatched = s.dispatched := by
  unfold processItem
  by_cases he : reportExists s.db r.fields.idStr <;> simp [he]

/-! ### Concrete sample data for witnesses and counterexamples -/

/-- A sample report author. -/
def sampleAuthor : Author := ⟨"alice", 0, 10, 20, "icon"⟩

/-- A sample new submission report whose webhook dispatch raises. -/
def failingReport : Report :=
  .submission ⟨"aaa111", sampleAuthor, 0, false, "/r/test/comments/aaa111/x/", [], [], true⟩
    ⟨"T1", []⟩

/-- A sample new submission report whose webhook dispatch succeeds. -/
def nextReport : Report :=
  .submission ⟨"bbb222", sampleAuthor, 0, false, "/r/test/comments/bbb222/y/", [], [], false⟩
    ⟨"T2", []⟩

/-- The state after processing `nextReport` once from the empty state with
notifications suppressed. -/
def stateAfterFirst : BotState :=
  ⟨["bbb222"], [],
   ["Checking report bbb222...",
    "A submission by alice has been reported: <https://www.reddit.com/r/test/comments/bbb222/y/>"]⟩

/-! ### The claims -/

/-- C1, counterexample: the claim says a per-item failure (here: a failed
webhook dispatch for `failingReport`) is logged and the loop continues with
the next feed item.  On the code there is no try/except in `Bot.run`: the
run over `[failingReport, nextReport]` stops at the first item, and
`nextReport` is never even checked — its identity is not persisted and its
check line is never printed. -/
theorem c1_loop_stops_counterexample :
    (runLoop "test" false ⟨[], [], []⟩ [failingReport, nextReport]).2 = false ∧
    ((runLoop "test" false ⟨[], [], []⟩ [failingReport, nextReport]).1.db).contains
      "bbb222" = false ∧
    ((runLoop "test" false ⟨[], [], []⟩ [failingReport, nextReport]).1.log).contains
      (checkLine nextReport) = false := by
  decide

/-- C1, amended: an uncaught error while processing a feed item (for example
a failed notification dispatch) propagates out of the `for` loop of
`Bot.run` and terminates it; no later feed item is processed.  Only the
duplicate-report case is handled-and-continue. -/
theorem c1_failure_terminates_loop (subreddit : String) (skip : Bool) (s : BotState)
    (r : Report) (rest : List Report)
    (h : (processItem subreddit skip s r).2 = false) :
    runLoop subreddit skip s (r :: rest) = ((processItem subreddit skip s r).1, false) := by
  simp [runLoop, h]

/-- C1, witness for the amended theorem at a concrete failing feed. -/
theorem c1_failure_terminates_loop_witness :
    runLoop "test" false ⟨[], [], []⟩ [failingReport, nextReport] =
      ((processItem "test" false ⟨[], [], []⟩ failingReport).1, false) :=
  c1_failure_terminates_loop "test" false ⟨[], [], []⟩ failingReport [nextReport] (by decide)

/-- C2: the claim (and the spec's requirement) is that the identity is bound
as a parameter of a fixed parameterized query and can never alter the
query's structure.  The code instead builds both SQL texts with
`"...".format(report)`: an identity containing the string delimiter
rewrites the query's structure.  Evaluated at concrete failing inputs, the
existence check for one crafted identity becomes a disjunction of two
`exists` predicates, and the insert for another becomes a two-row insert. -/
theorem c2_interpolated_query_injection :
    reportExistsQuery "x') OR exists(SELECT * FROM public.reports WHERE report='x" =
      "SELECT exists(SELECT * FROM public.reports WHERE report='x') OR exists(SELECT * FROM public.reports WHERE report='x')" ∧
    saveReportQuery "x'),('y" =
      "INSERT INTO public.reports(report) VALUES ('x'),('y')" :=
  ⟨rfl, rfl⟩

/-- C3: once a report's identity has been processed (successfully or not,
`b` arbitrary), processing a second report with the same identity changes
nothing but the log: no row is inserted, no dispatch call is made, and the
iteration completes, printing exactly the check line and the
already-reported line. -/
theorem c3_second_occurrence_noop (subreddit : String) (skip : Bool)
    (s s1 : BotState) (b : Bool) (r r2 : Report)
    (hid : r2.fields.idStr = r.fields.idStr)
    (h1 : processItem subreddit skip s r = (s1, b)) :
    processItem subreddit skip s1 r2 =
      ({ s1 with log := s1.log ++ [checkLine r2, alreadyLine r2] }, true) := by
  have hmem : reportExists s1.db r2.fields.idStr = true := by
    have hc := processItem_db_contains subreddit skip s r
    rw [h1] at hc
    rw [reportExists, hid]
    exact hc
  simp [processItem, hmem]

/-- C3, witness: the second occurrence of `nextReport` after one successful
pass from the empty state. -/
theorem c3_second_occurrence_noop_witness :
    processItem "test" true stateAfterFirst nextReport =
      ({ stateAfterFirst with
          log := stateAfterFirst.log ++ [checkLine nextReport, alreadyLine nextReport] },
        true) :=
  c3_second_occurrence_noop "test" true ⟨[], [], []⟩ stateAfterFirst true nextReport
    nextReport rfl (by decide)

/-- Every identity an iteration dispatches for was already in the committed
rows of the iteration's final state or is inserted by it. -/
lemma processItem_dispatched_mem (subreddit : String) (skip : Bool) (s : BotState)
    (r : Report) (i : String)
    (hi : i ∈ (processItem subreddit skip s r).1.dispatched) :
    i ∈ s.dispatched ∨ i = r.fields.idStr := by
  unfold processItem at hi
  by_cases he : reportExists s.db r.fields.idStr
  · simp [he] at hi
    exact Or.inl hi
  · by_cases hs : skip
    · simp [he, hs] at hi
      exact Or.inl hi
    · by_cases hd : r.fields.dispatchFails
      · simp [he, hs, hd] at hi
        exact hi
      · simp [he, hs, hd] at hi
        exact hi

/-- One iteration preserves the invariant that every dispatched-for identity
has a committed row: the INSERT and its commit happen before the dispatch
call, and a dispatch failure does not undo them. -/
lemma processItem_dispatched_in_db (subreddit : String) (skip : Bool) (s : BotState)
    (r : Report)
    (h : s.dispatched.all (fun i => s.db.contains i) = true) :
    ((processItem subreddit skip s r).1.dispatched).all
      (fun i => ((processItem subreddit skip s r).1.db).contains i) = true := by
  rw [List.all_eq_true] at h ⊢
  intro i hi
  rcases processItem_dispatched_mem subreddit skip s r i hi with hold | hnew
  · exact processItem_db_mono subreddit skip s r i (h i hold)
  · rw [hnew]
    exact processItem_db_contains subreddit skip s r

/-- C4: over any run of the loop, if initially every identity dispatched for
has a committed row, this still holds in the final state (also when the run
stopped on a dispatch failure): a report for which `Webhook.send` was
invoked already has its row committed — `__save_report` runs `INSERT` and
`conn.commit()` before `__send_to_discord` is attempted, and a dispatch
failure never removes the row. -/
theorem c4_dispatch_implies_persisted (subreddit : String) (skip : Bool)
    (s : BotState) (feed : List Report)
    (h : s.dispatched.all (fun i => s.db.contains i) = true) :
    ((runLoop subreddit skip s feed).1.dispatched).all
      (fun i => ((runLoop subreddit skip s feed).1.db).contains i) = true := by
  induction feed generalizing s with
  | nil => simpa [runLoop] using h
  | cons r rest ih =>
    rw [runLoop]
    by_cases hp : (processItem subreddit skip s r).2 = true
    · simp only [hp, if_true]
      exact ih _ (processItem_dispatched_in_db subreddit skip s r h)
    · simp only [hp, if_false]
      exact processItem_dispatched_in_db subreddit skip s r h

/-- C4, witness: a run over one new report with dispatch enabled, from the
empty state. -/
theorem c4_dispatch_implies_persisted_witness :
    ((runLoop "test" false ⟨[], [], []⟩ [nextReport]).1.dispatched).all
      (fun i => ((runLoop "test" false ⟨[], [], []⟩ [nextReport]).1.db).contains i) =
      true :=
  c4_dispatch_implies_persisted "test" false ⟨[], [], []⟩ [nextReport] (by decide)

/-- C5: the excerpt expression of `__generate_embed` returns text of length
at most 120 unchanged; longer text becomes its first 120 characters
followed by the three-character ellipsis, total length 123. -/
theorem c5_truncation (text : List Char) :
    (text.length ≤ 120 → truncate text = text) ∧
    (120 < text.length →
      truncate text = text.take 120 ++ ['.', '.', '.'] ∧
      (truncate text).length = 123) := by
  constructor
  · intro h
    simp [truncate, Nat.not_lt.mpr h]
  · intro h
    refine ⟨by simp [truncate, h], ?_⟩
    simp [truncate, h]
    omega

/-- C5, witness: a short body is unchanged; a 121-character body is cut to
120 characters plus the ellipsis, length 123. -/
theorem c5_truncation_witness :
    truncate ['a', 'b'] = ['a', 'b'] ∧
    truncate (List.replicate 121 'a') =
      (List.replicate 121 'a').take 120 ++ ['.', '.', '.'] ∧
    (truncate (List.replicate 121 'a')).length = 123 :=
  ⟨(c5_truncation ['a', 'b']).1 (by decide),
   ((c5_truncation (List.replicate 121 'a')).2 (by simp)).1,
   ((c5_truncation (List.replicate 121 'a')).2 (by simp)).2⟩

/-- C6: for a comment nested `n + 1` levels (any `n`, so any depth `k ≥ 1`)
under a submission, the title field of the rendered content is that
submission's title: the ancestor-chain walk of
`__get_submission_from_comment` reaches the root comment and resolves its
parent submission, independent of the depth. -/
theorem c6_comment_root_title (n : Nat) (sub : SubmissionData) (body : List Char)
    (f : ReportFields) :
    (reportTitleContent (.comment f body (chainOfDepth n sub))).1 = sub.title := by
  induction n with
  | zero => rfl
  | succ k ih =>
    simpa [reportTitleContent, chainOfDepth, getSubmissionFromComment] using ih

/-- C7: with `skip_discord` truthy, a run over any feed makes no dispatch
call (the dispatched list is unchanged), always completes, and still
persists every feed item's identity. -/
theorem c7_skip_discord_persists_without_dispatch (subreddit : String) (s : BotState)
    (feed : List Report) :
    (runLoop subreddit true s feed).1.dispatched = s.dispatched ∧
    (runLoop subreddit true s feed).2 = true ∧
    feed.all
      (fun r => ((runLoop subreddit true s feed).1.db).contains r.fields.idStr) =
      true := by
  induction feed generalizing s with
  | nil => simp [runLoop]
  | cons r rest ih =>
    have hok := processItem_skip_ok subreddit s r
    rw [runLoop]
    simp only [hok, if_true]
    obtain ⟨ihd, iho, ihall⟩ := ih (processItem subreddit true s r).1
    refine ⟨?_, iho, ?_⟩
    · rw [ihd, processItem_skip_dispatched]
    · rw [List.all_cons, Bool.and_eq_true]
      exact ⟨runLoop_db_mono subreddit true _ rest r.fields.idStr
        (processItem_db_contains subreddit true s r), ihall⟩

/-- C8, counterexample: the claim says every report's URL is the platform
domain followed by the community name followed by the report's relative
path.  For a report whose `permalink` is a plain string attribute (the
`else` branch of `__get_report_url`) the code prefixes only the domain: for
the sample report with permalink `/r/test/comments/bbb222/y/` the result
lacks the claimed extra `/r/test` community segment. -/
theorem c8_url_counterexample :
    getReportUrl "test" nextReport =
      "https://www.reddit.com" ++ nextReport.fields.permalink ∧
    (getReportUrl "test" nextReport ==
      "https://www.reddit.com" ++ "/r/" ++ "test" ++ nextReport.fields.permalink) =
      false := by
  exact ⟨rfl, rfl⟩

/-- C8, amended: only when `report.permalink` is a bound method is the URL
the domain followed by `/r/`, the community name and the method's result;
when `permalink` is a string attribute the URL is the domain followed by
that attribute, with no community segment inserted. -/
theorem c8_url_shape (subreddit : String) (r : Report) :
    (r.fields.permalinkIsMethod = true →
      getReportUrl subreddit r =
        "https://www.reddit.com" ++ "/r/" ++ subreddit ++ r.fields.permalink) ∧
    (r.fields.permalinkIsMethod = false →
      getReportUrl subreddit r = "https://www.reddit.com" ++ r.fields.permalink) := by
  constructor <;> intro h <;> simp [getReportUrl, h]

/-- C8, witness for the amended theorem: both branches at concrete reports. -/
theorem c8_url_shape_witness :
    getReportUrl "test"
        (.submission ⟨"m1", sampleAuthor, 0, true, "/comments/m1/x/", [], [], false⟩
          ⟨"T", []⟩) =
      "https://www.reddit.com" ++ "/r/" ++ "test" ++ "/comments/m1/x/" ∧
    getReportUrl "test" nextReport =
      "https://www.reddit.com" ++ nextReport.fields.permalink :=
  ⟨(c8_url_shape "test"
      (.submission ⟨"m1", sampleAuthor, 0, true, "/comments/m1/x/", [], [], false⟩
        ⟨"T", []⟩)).1 rfl,
   (c8_url_shape "test" nextReport).2 rfl⟩

/-- C9: `__get_report_type` is total with exactly the two outcomes
`"submission"` and `"comment"` (the isinstance test's else covers every
non-Submission report), so the `if/elif/else` chain of `__generate_embed`
always takes branch 0 or branch 1 — the else branch rendering `'(unknown)'`
is unreachable. -/
theorem c9_report_type_two_outcomes (r : Report) :
    (getReportType r = "submission" ∨ getReportType r = "comment") ∧
    (embedBranch (getReportType r) = 0 ∨ embedBranch (getReportType r) = 1) := by
  cases r with
  | submission f d => exact ⟨Or.inl rfl, Or.inl rfl⟩
  | comment f b c => exact ⟨Or.inr rfl, Or.inr rfl⟩

/-- C10: `SKIP_DISCORD` is read as a raw environment string tested only for
truthiness: notifications are suppressed exactly when the variable is set
to a non-empty string — including `"false"` and `"0"` — and enabled when it
is unset or the empty string. -/
theorem c10_skip_discord_truthiness :
    skipDiscordOfEnv none = false ∧
    skipDiscordOfEnv (some "") = false ∧
    skipDiscordOfEnv (some "false") = true ∧
    skipDiscordOfEnv (some "0") = true ∧
    (∀ env : Option String,
      skipDiscordOfEnv env = true ↔ ∃ s, env = some s ∧ s ≠ "") := by
  refine ⟨rfl, rfl, rfl, rfl, ?_⟩
  intro env
  cases env with
  | none => simp [skipDiscordOfEnv, envGet, pyTruthy]
  | some s =>
    have hne : s.isEmpty = false ↔ ¬s = "" := by
      rw [Bool.eq_false_iff]
      exact not_congr (String.isEmpty_iff s)
    simp [skipDiscordOfEnv, envGet, pyTruthy, hne]

end ModqueueBot
